import Mathlib

/-!
Verification of the exploration-run operator (`dpgen2/op/run_lmp.py`).

The Python module is shallowly embedded here.  File contents are `String`s;
`pyReadlines` mirrors Python `readlines` (each line keeps its trailing
newline), `pysplit` mirrors `str.split()` (split on whitespace runs,
dropping empty tokens), `pyjoin` mirrors `sep.join(...)`, `replaceAll`
mirrors `str.replace` (left-to-right, non-overlapping, all occurrences),
and `containsSub` mirrors `str.find(sub) != -1`.

An exception raised by the Python code is modelled by an `Except.error`
result.  Both text-patching functions raise (inside `find_only_one_key`,
the assert, or the run-scan) strictly before the file is reopened for
writing, so an `Except.error` result models "the file is left unmodified".

The call `random.shuffle(tmp)` is modelled by an explicit function
parameter `sh : List String → List String`; every execution of the Python
code corresponds to instantiating `sh` with some permutation.
-/

set_option autoImplicit false

namespace RunLmpVerify

/-- Python `str.split()` on a character list: split on runs of whitespace,
no empty tokens.  `acc` holds the current token reversed. -/
def pysplitAux : List Char → List Char → List (List Char)
  | [], acc => if acc = [] then [] else [acc.reverse]
  | c :: rest, acc =>
    if c.isWhitespace then
      if acc = [] then pysplitAux rest [] else acc.reverse :: pysplitAux rest []
    else pysplitAux rest (c :: acc)

/-- Python `str.split()` (no argument): whitespace-separated tokens. -/
def pysplit (s : String) : List String :=
  (pysplitAux s.data []).map String.mk

/-- Python `f.readlines()`: split the file content after every newline
character; every line except possibly the last keeps its `\n`. -/
def pyReadlinesAux : List Char → List Char → List (List Char)
  | [], acc => if acc = [] then [] else [acc.reverse]
  | c :: rest, acc =>
    if c = '\n' then (c :: acc).reverse :: pyReadlinesAux rest []
    else pyReadlinesAux rest (c :: acc)

/-- Python `f.readlines()` on a whole file content. -/
def pyReadlines (s : String) : List String :=
  (pyReadlinesAux s.data []).map String.mk

/-- Python `sep.join(xs)`. -/
def pyjoin (sep : String) : List String → String
  | [] => ""
  | [x] => x
  | x :: xs => x ++ sep ++ pyjoin sep xs

/-- Python `s.find(pat) != -1`: `pat` occurs as a (contiguous) substring. -/
def containsSub : List Char → List Char → Bool
  | [], pat => decide (pat = [])
  | c :: rest, pat => decide ((c :: rest).take pat.length = pat) || containsSub rest pat

/-- Python `s.replace(old, new)`: replace every occurrence, scanning left to
right, non-overlapping. -/
def replaceAll (pat rep : List Char) (s : List Char) : List Char :=
  match s with
  | [] => []
  | c :: rest =>
    if h : pat ≠ [] ∧ (c :: rest).take pat.length = pat then
      rep ++ replaceAll pat rep ((c :: rest).drop pat.length)
    else
      c :: replaceAll pat rep rest
termination_by s.length
decreasing_by
  · simp only [List.length_drop, List.length_cons]
    have hp : pat.length ≠ 0 := fun hz => h.1 (List.eq_nil_of_length_eq_zero hz)
    omega
  · simp

/-- Python `s.replace(old, new)` at `String` level. -/
def pyreplace (s old new : String) : String :=
  String.mk (replaceAll old.data new.data s.data)

/-- Modelled from the spec: the fixed driver-file name (`lmp_input_name`
from the constants module, which is not part of the sources). -/
def lmp_input_name : String := "in.lammps"

/-- Modelled from the spec: the fixed engine log-file name. -/
def lmp_log_name : String := "log.lammps"

/-- Modelled from the spec: the fixed trajectory-file name. -/
def lmp_traj_name : String := "traj.dump"

/-- Modelled from the spec: the fixed model-deviation file name. -/
def lmp_model_devi_name : String := "model_devi.out"

/-- Modelled from the spec: the fixed auxiliary-output file name. -/
def plm_output_name : String := "plm.out"

/-- `"%03d" % n`: decimal digits of `n`, zero-padded to width 3. -/
def zfill3 (n : Nat) : String :=
  let s := toString n
  if s.length < 3 then String.mk (List.replicate (3 - s.length) '0') ++ s else s

/-- Modelled from the spec: `model_name_pattern % i`, the numbered model
name for zero-based index `i` (the constants module is not in the sources;
the spec gives the shape `model_000.pb`). -/
def model_name_pattern (i : Nat) : String := "model_" ++ zfill3 i ++ ".pb"

/-- Modelled from the spec: `re.fullmatch(model_name_match_pattern, tok)`,
the variant model-name pattern used by the shuffle scan: `model_` followed
by a non-empty digit block followed by `.pb`. -/
def model_name_matches (tok : String) : Bool :=
  let cs := tok.data
  decide (cs.take 6 = "model_".data) &&
    (let rest := cs.drop 6
     decide (rest.takeWhile Char.isDigit ≠ []) &&
       decide (rest.dropWhile Char.isDigit = ".pb".data))

/-- The fixed keyword pair identifying the pair-style line. -/
def key_deepmd : List String := ["pair_style", "deepmd"]

/-- Does a line match the keyword: `words[:nkey] == key` with
`len(words) >= nkey` (run_lmp.py, `find_only_one_key`, lines 307-310). -/
def lineMatchesKey (key : List String) (line : String) : Bool :=
  let words := pysplit line
  decide (key.length ≤ words.length) && decide (words.take key.length = key)

/-- Indices of the lines matching the keyword, in order. -/
def matchedIndices (key : List String) (lines : List String) : List Nat :=
  ((lines.enum).filter fun p => lineMatchesKey key p.2).map Prod.fst

/-- `find_only_one_key` (run_lmp.py lines 304-315): error unless exactly
one line matches. -/
def find_only_one_key (lmp_lines : List String) (key : List String) : Except String Nat :=
  match matchedIndices key lmp_lines with
  | [] => Except.error "failed to find keyword"
  | [idx] => Except.ok idx
  | found => Except.error ("found " ++ toString found.length ++ " keywords")

/-- `" ".join([model_name_pattern % i for i in range(2)])`
(run_lmp.py line 259). -/
def teacher_models_str : String :=
  pyjoin " " [model_name_pattern 0, model_name_pattern 1]

/-- `add_teacher_model` (run_lmp.py lines 247-263) on the readlines list:
find the unique `pair_style deepmd` line, assert the index-0 model name
occurs on it, then `str.replace` it by the doubled reference. -/
def add_teacher_model_lines (lines : List String) : Except String (List String) :=
  match find_only_one_key lines key_deepmd with
  | Except.error e => Except.error e
  | Except.ok idx =>
    let line := lines.getD idx ""
    if containsSub line.data (model_name_pattern 0).data then
      Except.ok (lines.set idx (pyreplace line (model_name_pattern 0) teacher_models_str))
    else
      Except.error "cannot find model_000.pb in lmp_input"

/-- `add_teacher_model` on a whole file content: readlines, patch, and
write back `"".join(lmp_input_lines)`. -/
def add_teacher_model (content : String) : Except String String :=
  (add_teacher_model_lines (pyReadlines content)).map String.join

/-- The scan loop of `randomly_shuffle_models` (run_lmp.py lines 272-282):
walks the tokens keeping `match_first` (`mf`, `none` for `-1`); on the
first non-matching token after a match it breaks with
`match_last = sidx`. -/
def scanRunAux (p : String → Bool) : List String → Nat → Option Nat → Option Nat × Option Nat
  | [], _, mf => (mf, none)
  | t :: rest, sidx, mf =>
    if p t then
      scanRunAux p rest (sidx + 1) (match mf with | none => some sidx | some m => some m)
    else
      match mf with
      | none => scanRunAux p rest (sidx + 1) none
      | some m => (some m, some sidx)

/-- `randomly_shuffle_models` (run_lmp.py lines 266-301) on the readlines
list, with the `random.shuffle` call abstracted as `sh`.  Note line 298:
the rebuilt line is `" ".join(new_line_split)`, with no trailing
newline. -/
def randomly_shuffle_models_lines (sh : List String → List String)
    (lines : List String) : Except String (List String) :=
  match find_only_one_key lines key_deepmd with
  | Except.error e => Except.error e
  | Except.ok idx =>
    let toks := pysplit (lines.getD idx "")
    match scanRunAux model_name_matches toks 0 none with
    | (none, _) => Except.error "cannot find model pattern in line"
    | (some _, none) => Except.error "last matching index should not be -1, terribly wrong"
    | (some mf, some ml) =>
      if (toks.drop ml).any model_name_matches then
        Except.error "unexpected matching of model pattern in line"
      else
        Except.ok (lines.set idx
          (pyjoin " " (toks.take mf ++ sh ((toks.drop mf).take (ml - mf)) ++ toks.drop ml)))

/-- `randomly_shuffle_models` on a whole file content: readlines, patch,
write back `"".join(lmp_input_lines)`. -/
def randomly_shuffle_models (sh : List String → List String)
    (content : String) : Except String String :=
  (randomly_shuffle_models_lines sh (pyReadlines content)).map String.join

/-! ### The execute phase (`RunLmp.execute`, run_lmp.py lines 84-206) -/

/-- The two error kinds `RunLmp.execute` can signal: `transient` models
`TransientError` (retryable; carries the message and the diagnostic text
passed to `logging.error`), `fatal` models a non-retryable precondition
failure (a Python `AssertionError`). -/
inductive OpError
  | transient : String → String → OpError
  | fatal : String → OpError
deriving DecidableEq

/-- Lines 129-134: with a teacher model configured, assert that exactly one
model was supplied, save the teacher as `teacher_model.pb` and prepend it
to the model list. -/
def teacher_model_file : String := "teacher_model.pb"

/-- The model-list preparation step of `execute` (lines 129-134).  The
teacher model's binary content is irrelevant to the list shape, so the
`Option` carries only an opaque tag. -/
def prepare_model_files (teacher : Option String) (model_files : List String) :
    Except OpError (List String) :=
  match teacher with
  | none => Except.ok model_files
  | some _ =>
    if model_files.length = 1 then
      Except.ok (teacher_model_file :: model_files)
    else
      Except.error (OpError.fatal "One model is enough in knowledge distillation")

/-- The link names assigned in the staging loop (lines 142-145): model
number `idx` is linked as `model_name_pattern % idx`. -/
def model_links (files : List String) : List (String × String) :=
  files.enum.map fun p => (model_name_pattern p.1, p.2)

/-- Line 174: `" ".join([command, "-i", lmp_input_name, "-log",
lmp_log_name])`. -/
def lmp_full_command (command : String) : String :=
  pyjoin " " [command, "-i", lmp_input_name, "-log", lmp_log_name]

/-- Lines 177-191: the diagnostic string passed to `logging.error`
(`"".join` of the listed pieces) when the engine exits non-zero. -/
def lmp_fail_log (command out err : String) : String :=
  "lmp failed\n" ++ "command was: " ++ command ++ "out msg: " ++ out ++ "\n" ++
    "err msg: " ++ err ++ "\n"

/-- `err` occurs as a substring of `s`. -/
def isSubstrOf (err s : String) : Bool :=
  containsSub s.data err.data

/-- Lines 174-192: build the full command, run it (the external engine is
modelled as a function from the command line to
`(exit code, stdout, stderr)`), and on a non-zero exit log and raise
`TransientError`.  On success the diagnostic log produced is `none`. -/
def run_lmp_command (command : String) (engine : String → Int × String × String) :
    Except OpError Unit :=
  let full := lmp_full_command command
  let r := engine full
  if r.1 ≠ 0 then
    Except.error (OpError.transient "lmp failed" (lmp_fail_log full r.2.1 r.2.2))
  else
    Except.ok ()

/-- Python `work_dir / name`. -/
def pathJoin (a b : String) : String := a ++ "/" ++ b

/-- Lines 194-204: the returned output bundle, keyed by output name.
`plmExists` models `(work_dir / plm_output_name).is_file()`. -/
def collect_outputs (work_dir : String) (plmExists : Bool) : List (String × String) :=
  [("log", pathJoin work_dir lmp_log_name),
   ("traj", pathJoin work_dir lmp_traj_name),
   ("model_devi", pathJoin work_dir lmp_model_devi_name)] ++
    (if plmExists then [("plm_output", pathJoin work_dir plm_output_name)] else [])

/-- First-match association-list lookup (a Python `dict` access). -/
def lookupKV {α : Type} (l : List (String × α)) (k : String) : Option α :=
  match l with
  | [] => none
  | p :: rest => if p.1 = k then some p.2 else lookupKV rest k

/-! ### Configuration normalization (`RunLmp.lmp_args`/`normalize_config`,
run_lmp.py lines 208-241) -/

/-- A configuration value: a string, a boolean, Python `None`, or an opaque
`BinaryFileInput` handle. -/
inductive CfgValue
  | vstr : String → CfgValue
  | vbool : Bool → CfgValue
  | vnone : CfgValue
  | vbin : Nat → CfgValue
deriving DecidableEq

/-- The recognized option names, from `RunLmp.lmp_args` (lines 208-233). -/
def cfgKeys : List String :=
  ["command", "teacher_model_path", "shuffle_models", "impl", "head"]

/-- The fixed defaults of `RunLmp.lmp_args`: `command="lmp"`,
`teacher_model_path=None`, `shuffle_models=False`, `impl="tensorflow"`,
`head=None`. -/
def cfgDefault (k : String) : CfgValue :=
  if k = "command" then CfgValue.vstr "lmp"
  else if k = "shuffle_models" then CfgValue.vbool false
  else if k = "impl" then CfgValue.vstr "tensorflow"
  else CfgValue.vnone

/-- The declared type of each option (`str`; `[BinaryFileInput, str]`
optional; `bool`; `str`; optional `str`). -/
def cfgTypeOk (k : String) (v : CfgValue) : Bool :=
  if k = "command" ∨ k = "impl" then
    match v with | CfgValue.vstr _ => true | _ => false
  else if k = "shuffle_models" then
    match v with | CfgValue.vbool _ => true | _ => false
  else if k = "teacher_model_path" then
    match v with | CfgValue.vstr _ => true | CfgValue.vbin _ => true
                 | CfgValue.vnone => true | _ => false
  else
    match v with | CfgValue.vstr _ => true | CfgValue.vnone => true | _ => false

/-- The trim pattern `"_*"` of `normalize_value` (line 239): an
unrecognized key is silently dropped iff it starts with an underscore. -/
def isTrimKey (k : String) : Bool :=
  decide (k.data.take 1 = ['_'])

/-- Modelled from the spec: `RunLmp.normalize_config` (lines 235-241).
The `dargs` schema engine is not part of the sources; following the spec,
keys matching the trim pattern are dropped, any other unrecognized key is
a validation error, wrongly-typed values are a validation error, and every
missing option is filled with its fixed default. -/
def normalize_config (data : List (String × CfgValue)) :
    Except String (List (String × CfgValue)) :=
  let trimmed := data.filter fun p => !(isTrimKey p.1)
  match trimmed.find? (fun p => !(decide (p.1 ∈ cfgKeys))) with
  | some p => Except.error ("unrecognized key " ++ p.1)
  | none =>
    match trimmed.find? (fun p => !(cfgTypeOk p.1 p.2)) with
    | some p => Except.error ("wrong value type for key " ++ p.1)
    | none =>
      Except.ok (cfgKeys.map fun k => (k, (lookupKV trimmed k).getD (cfgDefault k)))

/-! ### Helper lemmas -/

theorem string_data_append (s t : String) : (s ++ t).data = s.data ++ t.data := by
  cases s; cases t; rfl

theorem string_eq_of_data (s t : String) (h : s.data = t.data) : s = t := by
  cases s; cases t; exact congrArg String.mk h

/-- A pattern planted between two context lists is found by `containsSub`. -/
theorem containsSub_append (a pat b : List Char) :
    containsSub (a ++ pat ++ b) pat = true := by
  induction a with
  | nil =>
    cases pat with
    | nil =>
      cases b with
      | nil => rfl
      | cons c rest => simp [containsSub]
    | cons p pr =>
      simp only [List.nil_append, List.cons_append, containsSub]
      have ht : ((p :: pr) ++ b).take (p :: pr).length = p :: pr := List.take_left _ _
      simp only [List.cons_append] at ht
      simp [ht]
  | cons c a' ih =>
    simp only [List.cons_append, containsSub, Bool.or_eq_true, decide_eq_true_eq]
    right
    simpa [List.append_assoc] using ih

/-! ### C1: shuffle on a `pair_style deepmd` line with a trailing extra
token.  The Python code rebuilds the matched line as
`" ".join(new_line_split)` (line 298) and so drops the line's trailing
newline: when the matched line is not the last line of the file, the
following line is concatenated onto it in the written file.  The input
below has the matched line first and a second line after it; with the
identity permutation (one possible outcome of `random.shuffle`) the
written file has a single line — the second line of the file is not left
unchanged. -/

def c1_input : String :=
  "pair_style deepmd model_000.pb model_001.pb model_002.pb extra_token\nsecond_line stuff\n"

def c1_merged : String :=
  "pair_style deepmd model_000.pb model_001.pb model_002.pb extra_tokensecond_line stuff\n"

/-- C1: the claim fails on the code.  On a two-line driver file whose
first line is the unique `pair_style deepmd` line with run
`model_000.pb model_001.pb model_002.pb` followed by `extra_token`,
`randomly_shuffle_models` (here with the identity permutation, a possible
outcome of `random.shuffle`) writes the matched line back without its
trailing newline, so the written file consists of a single line into which
the former second line has been merged: the other line of the file is not
left unchanged. -/
theorem claim_c1_code_bug :
    randomly_shuffle_models (fun l => l) c1_input = Except.ok c1_merged ∧
    pyReadlines c1_input =
      ["pair_style deepmd model_000.pb model_001.pb model_002.pb extra_token\n",
       "second_line stuff\n"] ∧
    pyReadlines c1_merged = [c1_merged] := by
  exact ⟨rfl, rfl, rfl⟩

/-! ### C6: command-line construction and non-zero-exit handling -/

/-- C6: `RunLmp.execute` builds the engine command line by appending
exactly `-i <driver-file> -log <log-file>` to the configured command, and
on any non-zero exit it raises the retryable kind (`TransientError`)
whose diagnostic log contains the full command line and the captured
stderr (and stdout). -/
theorem claim_c6 (command : String) (engine : String → Int × String × String)
    (ret : Int) (out err : String)
    (heng : engine (lmp_full_command command) = (ret, out, err))
    (hret : ret ≠ 0) :
    lmp_full_command command =
      command ++ " -i " ++ lmp_input_name ++ " -log " ++ lmp_log_name ∧
    run_lmp_command command engine =
      Except.error (OpError.transient "lmp failed"
        (lmp_fail_log (lmp_full_command command) out err)) ∧
    isSubstrOf err (lmp_fail_log (lmp_full_command command) out err) = true ∧
    isSubstrOf (lmp_full_command command)
      (lmp_fail_log (lmp_full_command command) out err) = true ∧
    isSubstrOf out (lmp_fail_log (lmp_full_command command) out err) = true := by
  refine ⟨?_, ?_, ?_, ?_, ?_⟩
  · apply string_eq_of_data
    simp only [lmp_full_command, pyjoin, string_data_append, List.append_assoc]
    rw [List.append_right_inj]
    rfl
  · simp [run_lmp_command, heng, hret]
  · have hd : (lmp_fail_log (lmp_full_command command) out err).data =
        ("lmp failed\n" ++ "command was: " ++ lmp_full_command command ++ "out msg: " ++
          out ++ "\n" ++ "err msg: ").data ++ err.data ++ "\n".data := by
      simp [lmp_fail_log, string_data_append, List.append_assoc]
    rw [isSubstrOf, hd]
    exact containsSub_append _ _ _
  · have hd : (lmp_fail_log (lmp_full_command command) out err).data =
        ("lmp failed\n" ++ "command was: ").data ++ (lmp_full_command command).data ++
          ("out msg: " ++ out ++ "\n" ++ "err msg: " ++ err ++ "\n").data := by
      simp [lmp_fail_log, string_data_append, List.append_assoc]
    rw [isSubstrOf, hd]
    exact containsSub_append _ _ _
  · have hd : (lmp_fail_log (lmp_full_command command) out err).data =
        ("lmp failed\n" ++ "command was: " ++ lmp_full_command command ++
          "out msg: ").data ++ out.data ++ ("\n" ++ "err msg: " ++ err ++ "\n").data := by
      simp [lmp_fail_log, string_data_append, List.append_assoc]
    rw [isSubstrOf, hd]
    exact containsSub_append _ _ _

/-- C6 witness: a concrete stub engine that exits 1 with stderr "boom". -/
theorem claim_c6_witness :
    (fun _ : String => ((1 : Int), "some output", "boom")) (lmp_full_command "lmp") =
        ((1 : Int), "some output", "boom") ∧
    (1 : Int) ≠ 0 ∧
    run_lmp_command "lmp" (fun _ => ((1 : Int), "some output", "boom")) =
      Except.error (OpError.transient "lmp failed"
        (lmp_fail_log (lmp_full_command "lmp") "some output" "boom")) ∧
    isSubstrOf "boom" (lmp_fail_log (lmp_full_command "lmp") "some output" "boom") = true := by
  have h := claim_c6 "lmp" (fun _ => ((1 : Int), "some output", "boom"))
    1 "some output" "boom" rfl (by decide)
  exact ⟨rfl, by decide, h.2.1, h.2.2.1⟩

/-! ### C7: the output bundle on a zero exit -/

/-- C7: on success the returned bundle maps `log`, `traj` and
`model_devi` to the fixed file names inside the task working directory,
and contains a `plm_output` entry if and only if the auxiliary file
exists on disk after the run. -/
theorem claim_c7 (work_dir : String) (plmExists : Bool) :
    lookupKV (collect_outputs work_dir plmExists) "log" =
      some (pathJoin work_dir lmp_log_name) ∧
    lookupKV (collect_outputs work_dir plmExists) "traj" =
      some (pathJoin work_dir lmp_traj_name) ∧
    lookupKV (collect_outputs work_dir plmExists) "model_devi" =
      some (pathJoin work_dir lmp_model_devi_name) ∧
    lookupKV (collect_outputs work_dir plmExists) "plm_output" =
      (if plmExists then some (pathJoin work_dir plm_output_name) else none) := by
  cases plmExists <;> exact ⟨rfl, rfl, rfl, rfl⟩

/-! ### C8: teacher-model staging -/

/-- C8: when a teacher model is configured, `execute` requires exactly one
supplied model (any other count is a fatal, non-retryable assertion
failure) and on success prepends the materialized teacher file, so that
the staging loop links the teacher as model index 0 and the supplied
model as index 1. -/
theorem claim_c8 (t : String) (ms : List String) :
    (ms.length ≠ 1 →
      prepare_model_files (some t) ms =
        Except.error (OpError.fatal "One model is enough in knowledge distillation")) ∧
    ∀ m : String,
      prepare_model_files (some t) [m] = Except.ok [teacher_model_file, m] ∧
      model_links [teacher_model_file, m] =
        [(model_name_pattern 0, teacher_model_file), (model_name_pattern 1, m)] := by
  constructor
  · intro h
    simp [prepare_model_files, h]
  · intro m
    exact ⟨by simp [prepare_model_files], rfl⟩

/-- C8 witness: two supplied models alongside a teacher model fail
fatally; a single one succeeds with the teacher at index 0. -/
theorem claim_c8_witness :
    (["m1", "m2"] : List String).length ≠ 1 ∧
    prepare_model_files (some "T") ["m1", "m2"] =
      Except.error (OpError.fatal "One model is enough in knowledge distillation") ∧
    prepare_model_files (some "T") ["m1"] = Except.ok [teacher_model_file, "m1"] := by
  exact ⟨by decide, (claim_c8 "T" ["m1", "m2"]).1 (by decide),
    ((claim_c8 "T" ["m1", "m2"]).2 "m1").1⟩

/-! ### `find_only_one_key` and the error claims C3 / C9 -/

theorem find_only_one_key_eq_ok (lines : List String) (idx : Nat)
    (h : matchedIndices key_deepmd lines = [idx]) :
    find_only_one_key lines key_deepmd = Except.ok idx := by
  simp [find_only_one_key, h]

/-- C3: on a driver file in which the number of `pair_style deepmd` lines
is zero or greater than one, both patching functions signal an error
(raised inside `find_only_one_key`, before the file is reopened for
writing, so the file contents are untouched). -/
theorem claim_c3 (content : String)
    (h : (matchedIndices key_deepmd (pyReadlines content)).length ≠ 1) :
    (∃ e, add_teacher_model content = Except.error e) ∧
    ∀ sh, ∃ e, randomly_shuffle_models sh content = Except.error e := by
  have hf : ∃ e, find_only_one_key (pyReadlines content) key_deepmd = Except.error e := by
    cases hm : matchedIndices key_deepmd (pyReadlines content) with
    | nil => exact ⟨"failed to find keyword", by simp [find_only_one_key, hm]⟩
    | cons x t =>
      cases t with
      | nil => exact absurd (by rw [hm]; rfl) h
      | cons y t' =>
        exact ⟨"found " ++ toString (t'.length + 1 + 1) ++ " keywords",
          by simp [find_only_one_key, hm]⟩
  obtain ⟨e, he⟩ := hf
  refine ⟨⟨e, ?_⟩, fun sh => ⟨e, ?_⟩⟩
  · simp [add_teacher_model, add_teacher_model_lines, he, Except.map]
  · simp [randomly_shuffle_models, randomly_shuffle_models_lines, he, Except.map]

/-- C3 witness: a driver file with two `pair_style deepmd` lines. -/
theorem claim_c3_witness :
    (matchedIndices key_deepmd
      (pyReadlines "pair_style deepmd model_000.pb\npair_style deepmd model_001.pb\n")).length ≠ 1 ∧
    ((∃ e, add_teacher_model
        "pair_style deepmd model_000.pb\npair_style deepmd model_001.pb\n" = Except.error e) ∧
      ∀ sh, ∃ e, randomly_shuffle_models sh
        "pair_style deepmd model_000.pb\npair_style deepmd model_001.pb\n" = Except.error e) :=
  ⟨by decide, claim_c3 "pair_style deepmd model_000.pb\npair_style deepmd model_001.pb\n" (by decide)⟩

/-- C9: on a driver file with exactly one `pair_style deepmd` line on
which the index-0 model name does not occur, `add_teacher_model` fails
(the assert at lines 254-256 fires before the file is reopened for
writing, so the file is untouched). -/
theorem claim_c9 (content : String) (idx : Nat)
    (hfind : matchedIndices key_deepmd (pyReadlines content) = [idx])
    (hno : containsSub ((pyReadlines content).getD idx "").data
      (model_name_pattern 0).data = false) :
    ∃ e, add_teacher_model content = Except.error e := by
  refine ⟨"cannot find model_000.pb in lmp_input", ?_⟩
  simp only [List.getD_eq_getElem?_getD] at hno
  simp [add_teacher_model, add_teacher_model_lines,
    find_only_one_key_eq_ok _ _ hfind, hno, Except.map]

/-- C9 witness: the unique matched line references `model_123.pb` but not
`model_000.pb`. -/
theorem claim_c9_witness :
    matchedIndices key_deepmd (pyReadlines "pair_style deepmd model_123.pb\n") = [0] ∧
    containsSub ((pyReadlines "pair_style deepmd model_123.pb\n").getD 0 "").data
      (model_name_pattern 0).data = false ∧
    ∃ e, add_teacher_model "pair_style deepmd model_123.pb\n" = Except.error e :=
  ⟨by decide, by decide,
    claim_c9 "pair_style deepmd model_123.pb\n" 0 (by decide) (by decide)⟩

/-! ### The run scan of `randomly_shuffle_models` and claims C10 / C4 -/

theorem scanRunAux_pre (p : String → Bool) (pre l : List String) (n : Nat)
    (hpre : ∀ t ∈ pre, p t = false) :
    scanRunAux p (pre ++ l) n none = scanRunAux p l (n + pre.length) none := by
  induction pre generalizing n with
  | nil => simp
  | cons t pre' ih =>
    have ht : p t = false := hpre t (by simp)
    simp only [List.cons_append, scanRunAux, ht, Bool.false_eq_true, if_false,
      List.append_eq]
    rw [ih (n + 1) fun u hu => hpre u (by simp [hu])]
    have harith : n + 1 + pre'.length = n + (t :: pre').length := by
      simp only [List.length_cons]
      omega
    rw [harith]

theorem scanRunAux_run (p : String → Bool) (run l : List String) (n m : Nat)
    (hrun : ∀ t ∈ run, p t = true) :
    scanRunAux p (run ++ l) n (some m) = scanRunAux p l (n + run.length) (some m) := by
  induction run generalizing n with
  | nil => simp
  | cons t run' ih =>
    have ht : p t = true := hrun t (by simp)
    simp only [List.cons_append, scanRunAux, ht, if_true, List.append_eq]
    rw [ih (n + 1) fun u hu => hrun u (by simp [hu])]
    have harith : n + 1 + run'.length = n + (t :: run').length := by
      simp only [List.length_cons]
      omega
    rw [harith]

/-- After a leading non-matching block and a non-empty matching run, the
scan continues on the remainder with `match_first` set to the run's start
position. -/
theorem scanRun_found (p : String → Bool) (pre run l : List String)
    (hpre : ∀ t ∈ pre, p t = false) (hrun : ∀ t ∈ run, p t = true) (hne : run ≠ []) :
    scanRunAux p (pre ++ run ++ l) 0 none =
      scanRunAux p l (pre.length + run.length) (some pre.length) := by
  cases run with
  | nil => exact absurd rfl hne
  | cons r0 run' =>
    rw [List.append_assoc, scanRunAux_pre p pre _ 0 hpre]
    have hr0 : p r0 = true := hrun r0 (by simp)
    simp only [List.cons_append, scanRunAux, hr0, Nat.zero_add, if_true, List.append_eq]
    rw [scanRunAux_run p run' l (pre.length + 1) pre.length
      fun u hu => hrun u (by simp [hu])]
    have harith : pre.length + 1 + run'.length = pre.length + (r0 :: run').length := by
      simp only [List.length_cons]
      omega
    rw [harith]

/-- C10: on a driver file with exactly one `pair_style deepmd` line whose
matching run extends to the very last token, the scan never sees a
non-matching token after the run, `match_last` stays `-1`, and
`randomly_shuffle_models` raises (before the file is reopened for
writing, so the file is untouched). -/
theorem claim_c10 (content : String) (idx : Nat) (pre run : List String)
    (hfind : matchedIndices key_deepmd (pyReadlines content) = [idx])
    (htoks : pysplit ((pyReadlines content).getD idx "") = pre ++ run)
    (hpre : ∀ t ∈ pre, model_name_matches t = false)
    (hrun : ∀ t ∈ run, model_name_matches t = true)
    (hne : run ≠ []) :
    ∀ sh, ∃ e, randomly_shuffle_models sh content = Except.error e := by
  intro sh
  refine ⟨"last matching index should not be -1, terribly wrong", ?_⟩
  have hscan : scanRunAux model_name_matches
      (pysplit ((pyReadlines content).getD idx "")) 0 none =
      (some pre.length, none) := by
    rw [htoks, show pre ++ run = pre ++ run ++ [] by simp,
      scanRun_found model_name_matches pre run [] hpre hrun hne]
    rfl
  simp only [List.getD_eq_getElem?_getD] at hscan
  simp [randomly_shuffle_models, randomly_shuffle_models_lines,
    find_only_one_key_eq_ok _ _ hfind, hscan, Except.map]

/-- C10 witness: the matching run `model_000.pb model_001.pb` ends the
line. -/
theorem claim_c10_witness :
    matchedIndices key_deepmd (pyReadlines "pair_style deepmd model_000.pb model_001.pb\n") = [0] ∧
    pysplit ((pyReadlines "pair_style deepmd model_000.pb model_001.pb\n").getD 0 "") =
      ["pair_style", "deepmd"] ++ ["model_000.pb", "model_001.pb"] ∧
    ∃ e, randomly_shuffle_models (fun l => l)
      "pair_style deepmd model_000.pb model_001.pb\n" = Except.error e :=
  ⟨by decide, by decide,
    claim_c10 "pair_style deepmd model_000.pb model_001.pb\n" 0
      ["pair_style", "deepmd"] ["model_000.pb", "model_001.pb"]
      (by decide) (by decide) (by decide) (by decide) (by decide) (fun l => l)⟩

/-- C4: on a driver file with exactly one `pair_style deepmd` line where
model-pattern tokens appear in a leading run and again later, after a
non-matching token, `randomly_shuffle_models` raises (the post-scan check
at lines 289-294 fires before the file is reopened for writing, so the
file is untouched). -/
theorem claim_c4 (content : String) (idx : Nat) (pre run rest : List String) (x : String)
    (hfind : matchedIndices key_deepmd (pyReadlines content) = [idx])
    (htoks : pysplit ((pyReadlines content).getD idx "") = pre ++ run ++ x :: rest)
    (hpre : ∀ t ∈ pre, model_name_matches t = false)
    (hrun : ∀ t ∈ run, model_name_matches t = true)
    (hne : run ≠ [])
    (hx : model_name_matches x = false)
    (hrest : ∃ t ∈ rest, model_name_matches t = true) :
    ∀ sh, ∃ e, randomly_shuffle_models sh content = Except.error e := by
  intro sh
  refine ⟨"unexpected matching of model pattern in line", ?_⟩
  have hscan : scanRunAux model_name_matches
      (pysplit ((pyReadlines content).getD idx "")) 0 none =
      (some pre.length, some (pre.length + run.length)) := by
    rw [htoks, scanRun_found model_name_matches pre run (x :: rest) hpre hrun hne]
    simp [scanRunAux, hx]
  have hdrop : (pysplit ((pyReadlines content).getD idx "")).drop
      (pre.length + run.length) = x :: rest := by
    rw [htoks, show pre ++ run ++ x :: rest = (pre ++ run) ++ x :: rest by simp,
      show pre.length + run.length = (pre ++ run).length by simp]
    exact List.drop_left _ _
  have hany : ((pysplit ((pyReadlines content).getD idx "")).drop
      (pre.length + run.length)).any model_name_matches = true := by
    rw [hdrop]
    obtain ⟨t, ht, hp⟩ := hrest
    exact List.any_eq_true.mpr ⟨t, by simp [ht], hp⟩
  simp only [List.getD_eq_getElem?_getD] at hscan hany
  simp [randomly_shuffle_models, randomly_shuffle_models_lines,
    find_only_one_key_eq_ok _ _ hfind, hscan, hany, Except.map]

/-- C4 witness: run at positions 2-4, a non-matching token `foo`, then the
discontiguous matching token `model_005.pb`. -/
theorem claim_c4_witness :
    pysplit ((pyReadlines
        "pair_style deepmd model_000.pb model_001.pb model_002.pb foo model_005.pb\n").getD 0 "") =
      ["pair_style", "deepmd"] ++ ["model_000.pb", "model_001.pb", "model_002.pb"] ++
        "foo" :: ["model_005.pb"] ∧
    ∃ e, randomly_shuffle_models (fun l => l)
      "pair_style deepmd model_000.pb model_001.pb model_002.pb foo model_005.pb\n" =
        Except.error e :=
  ⟨by decide,
    claim_c4 "pair_style deepmd model_000.pb model_001.pb model_002.pb foo model_005.pb\n" 0
      ["pair_style", "deepmd"] ["model_000.pb", "model_001.pb", "model_002.pb"]
      ["model_005.pb"] "foo"
      (by decide) (by decide) (by decide) (by decide) (by decide) (by decide)
      ⟨"model_005.pb", by decide, by decide⟩ (fun l => l)⟩

/-! ### `str.replace` with a unique occurrence, and claim C2 -/

/-- `pat` occurs in `s` at position `i`. -/
def occursAt (s pat : List Char) (i : Nat) : Prop :=
  (s.drop i).take pat.length = pat

instance (s pat : List Char) (i : Nat) : Decidable (occursAt s pat i) := by
  unfold occursAt
  infer_instance

theorem not_occursAt_of_le (s pat : List Char) (i : Nat) (hpat : pat ≠ [])
    (hle : s.length ≤ i) : ¬ occursAt s pat i := by
  intro hocc
  rw [occursAt, List.drop_eq_nil_of_le hle] at hocc
  simp at hocc
  exact hpat hocc

/-- `str.replace` is the identity when the pattern occurs nowhere. -/
theorem replaceAll_of_no_occ (pat rep s : List Char) (hpat : pat ≠ [])
    (hno : ∀ i < s.length, ¬ occursAt s pat i) :
    replaceAll pat rep s = s := by
  induction s with
  | nil => rw [replaceAll]
  | cons c rest ih =>
    rw [replaceAll]
    rw [dif_neg]
    · rw [ih]
      intro i hi
      have h1 := hno (i + 1) (by simp; omega)
      intro hocc
      exact h1 hocc
    · intro hcond
      have h0 : occursAt (c :: rest) pat 0 := by
        rw [occursAt, List.drop_zero]
        exact hcond.2
      exact hno 0 (by simp) h0

/-- `str.replace` fires on a pattern sitting at the front. -/
theorem replaceAll_front_occ (pat rep b : List Char) (hpat : pat ≠ []) :
    replaceAll pat rep (pat ++ b) = rep ++ replaceAll pat rep b := by
  cases hp : pat with
  | nil => exact absurd hp hpat
  | cons p pr =>
    rw [← hp]
    have hne : pat ++ b = p :: (pr ++ b) := by rw [hp]; rfl
    rw [hne, replaceAll]
    rw [dif_pos]
    · have hd : (p :: (pr ++ b)).drop pat.length = b := by
        rw [← hne]
        exact List.drop_left pat b
      rw [hd]
    · constructor
      · exact hpat
      · rw [← hne]
        exact List.take_left pat b

/-- `str.replace` on a string with a single occurrence of the pattern:
exactly that occurrence is rewritten, everything else is untouched. -/
theorem replaceAll_unique (a b pat rep : List Char) (hpat : pat ≠ [])
    (hA : ∀ i < a.length, ¬ occursAt (a ++ pat ++ b) pat i)
    (hB : ∀ i < b.length, ¬ occursAt b pat i) :
    replaceAll pat rep (a ++ pat ++ b) = a ++ rep ++ b := by
  induction a with
  | nil =>
    simp only [List.nil_append]
    rw [replaceAll_front_occ pat rep b hpat, replaceAll_of_no_occ pat rep b hpat hB]
  | cons c a' ih =>
    have hstep : (c :: a') ++ pat ++ b = c :: (a' ++ pat ++ b) := by simp
    have hA2 : ∀ i < a'.length, ¬ occursAt (a' ++ pat ++ b) pat i := by
      intro i hi
      have h1 := hA (i + 1) (by simp; omega)
      exact fun hocc => h1 hocc
    rw [hstep, replaceAll, dif_neg, ih hA2]
    · simp
    · intro hcond
      have h0 : occursAt ((c :: a') ++ pat ++ b) pat 0 := by
        rw [occursAt, List.drop_zero, hstep]
        exact hcond.2
      exact hA 0 (by simp) h0

/-- C2: on a driver file with exactly one `pair_style deepmd` line whose
content decomposes as `a ++ "model_000.pb" ++ b` with no other occurrence
of the index-0 model name, `add_teacher_model` rewrites exactly that
occurrence into the two references for indices 0 and 1 joined by a space
(`teacher_models_str`), leaving `a`, `b` (hence every other token of the
line, including its trailing newline) and — via `List.set` — every other
line byte-identical. -/
theorem claim_c2 (content : String) (idx : Nat) (a b : List Char)
    (hfind : matchedIndices key_deepmd (pyReadlines content) = [idx])
    (hline : ((pyReadlines content).getD idx "").data =
      a ++ (model_name_pattern 0).data ++ b)
    (hA : ∀ i < a.length,
      ¬ occursAt (a ++ (model_name_pattern 0).data ++ b) (model_name_pattern 0).data i)
    (hB : ∀ i < b.length, ¬ occursAt b (model_name_pattern 0).data i) :
    teacher_models_str = model_name_pattern 0 ++ " " ++ model_name_pattern 1 ∧
    add_teacher_model content =
      Except.ok (String.join ((pyReadlines content).set idx
        (String.mk (a ++ teacher_models_str.data ++ b)))) := by
  have hpat : (model_name_pattern 0).data ≠ [] := by decide
  constructor
  · rfl
  · have hc : containsSub ((pyReadlines content).getD idx "").data
        (model_name_pattern 0).data = true := by
      rw [hline]
      exact containsSub_append _ _ _
    have hrep : pyreplace ((pyReadlines content).getD idx "")
        (model_name_pattern 0) teacher_models_str =
        String.mk (a ++ teacher_models_str.data ++ b) := by
      rw [pyreplace, hline, replaceAll_unique a b _ _ hpat hA hB]
    simp only [List.getD_eq_getElem?_getD] at hc hrep
    simp [add_teacher_model, add_teacher_model_lines,
      find_only_one_key_eq_ok _ _ hfind, hc, hrep, Except.map]

/-- C2 witness: a two-line driver file; the patched file doubles the model
reference and keeps the second line byte-identical. -/
theorem claim_c2_witness :
    add_teacher_model "pair_style deepmd model_000.pb\nother line\n" =
      Except.ok "pair_style deepmd model_000.pb model_001.pb\nother line\n" := by
  have h := claim_c2 "pair_style deepmd model_000.pb\nother line\n" 0
    ("pair_style deepmd ".data) ("\n".data)
    (by decide) (by decide) (by decide) (by decide)
  rw [h.2]
  rfl

/-! ### Configuration normalization: claim C5 -/

theorem find?_eq_some_of_mem {α : Type} (l : List α) (p : α → Bool) (x : α)
    (hx : x ∈ l) (hp : p x = true) : ∃ y, l.find? p = some y := by
  have hs : (l.find? p).isSome = true := List.find?_isSome.mpr ⟨x, hx, hp⟩
  exact Option.isSome_iff_exists.mp hs

theorem lookupKV_filter_trim (data : List (String × CfgValue)) (k : String)
    (hk : isTrimKey k = false) :
    lookupKV (data.filter fun p => !(isTrimKey p.1)) k = lookupKV data k := by
  induction data with
  | nil => rfl
  | cons p rest ih =>
    cases htr : isTrimKey p.1 with
    | false => simp [List.filter_cons, htr, lookupKV, ih]
    | true =>
      have hne : p.1 ≠ k := by
        intro he
        rw [he, hk] at htr
        exact Bool.false_ne_true htr
      simp [List.filter_cons, htr, lookupKV, hne, ih]

theorem lookupKV_map_keys (keys : List String) (f : String → CfgValue) (k : String)
    (hk : k ∈ keys) :
    lookupKV (keys.map fun k2 => (k2, f k2)) k = some (f k) := by
  induction keys with
  | nil => cases hk
  | cons k0 rest ih =>
    by_cases he : k0 = k
    · subst he
      simp [lookupKV]
    · have hk2 : k ∈ rest := by
        cases hk with
        | head => exact absurd rfl he
        | tail _ h2 => exact h2
      simp [lookupKV, he, ih hk2]

theorem lookupKV_eq_none {α : Type} (l : List (String × α)) (k : String)
    (h : ∀ p ∈ l, p.1 ≠ k) : lookupKV l k = none := by
  induction l with
  | nil => rfl
  | cons p rest ih =>
    have hp : p.1 ≠ k := h p (by simp)
    simp [lookupKV, hp]
    exact ih fun q hq => h q (by simp [hq])

theorem cfgKeys_not_trim (k : String) (hk : k ∈ cfgKeys) : isTrimKey k = false := by
  fin_cases hk <;> decide

/-- C5: `normalize_config` raises a validation error on any unrecognized
key not matching the trim pattern; and on success it has filled every
missing option with its fixed default (`command="lmp"`,
`teacher_model_path=None`, `shuffle_models=False`, `impl="tensorflow"`,
`head=None`), the result contains no key matching the trim pattern
(leading underscore), and every trim-matching input key has been
dropped. -/
theorem claim_c5 (data : List (String × CfgValue)) :
    (∀ k v, (k, v) ∈ data → isTrimKey k = false → k ∉ cfgKeys →
      ∃ e, normalize_config data = Except.error e) ∧
    (∀ r, normalize_config data = Except.ok r →
      (∀ k, k ∈ cfgKeys → lookupKV data k = none → lookupKV r k = some (cfgDefault k)) ∧
      (∀ p, p ∈ r → isTrimKey p.1 = false) ∧
      (∀ k, isTrimKey k = true → lookupKV r k = none)) := by
  constructor
  · intro k v hmem htrim hnk
    have hmt : (k, v) ∈ data.filter fun p => !(isTrimKey p.1) :=
      List.mem_filter.mpr ⟨hmem, by simp [htrim]⟩
    obtain ⟨y, hy⟩ := find?_eq_some_of_mem _ (fun p => !(decide (p.1 ∈ cfgKeys)))
      (k, v) hmt (by simp [hnk])
    exact ⟨"unrecognized key " ++ y.1, by simp [normalize_config, hy]⟩
  · intro r hr
    cases h1 : (data.filter fun p => !(isTrimKey p.1)).find?
        (fun p => !(decide (p.1 ∈ cfgKeys))) with
    | some p => simp [normalize_config, h1] at hr
    | none =>
      cases h2 : (data.filter fun p => !(isTrimKey p.1)).find?
          (fun p => !(cfgTypeOk p.1 p.2)) with
      | some p => simp [normalize_config, h1, h2] at hr
      | none =>
        have hrr : r = cfgKeys.map fun k =>
            (k, (lookupKV (data.filter fun p => !(isTrimKey p.1)) k).getD (cfgDefault k)) := by
          simp [normalize_config, h1, h2] at hr
          exact hr.symm
        refine ⟨?_, ?_, ?_⟩
        · intro k hk hmiss
          have htr : isTrimKey k = false := cfgKeys_not_trim k hk
          have hnone : lookupKV (data.filter fun p => !(isTrimKey p.1)) k = none := by
            rw [lookupKV_filter_trim data k htr, hmiss]
          rw [hrr, lookupKV_map_keys cfgKeys _ k hk, hnone]
          rfl
        · intro p hp
          rw [hrr] at hp
          obtain ⟨k, hk, hpk⟩ := List.mem_map.mp hp
          have : p.1 = k := by rw [← hpk]
          rw [this]
          exact cfgKeys_not_trim k hk
        · intro k htrim
          rw [hrr]
          apply lookupKV_eq_none
          intro p hp
          obtain ⟨k2, hk2, hpk⟩ := List.mem_map.mp hp
          have hp1 : p.1 = k2 := by rw [← hpk]
          rw [hp1]
          intro he
          rw [he] at hk2
          rw [cfgKeys_not_trim k hk2] at htrim
          exact Bool.false_ne_true htrim

/-- C5 witness: a bare unrecognized key fails; a trim-matched key is
dropped and missing options are filled with their defaults. -/
theorem claim_c5_witness :
    (∃ e, normalize_config [("bogus", CfgValue.vstr "x")] = Except.error e) ∧
    normalize_config [("_private", CfgValue.vstr "x"), ("command", CfgValue.vstr "mylmp")] =
      Except.ok [("command", CfgValue.vstr "mylmp"), ("teacher_model_path", CfgValue.vnone),
        ("shuffle_models", CfgValue.vbool false), ("impl", CfgValue.vstr "tensorflow"),
        ("head", CfgValue.vnone)] ∧
    lookupKV [("command", CfgValue.vstr "mylmp"), ("teacher_model_path", CfgValue.vnone),
        ("shuffle_models", CfgValue.vbool false), ("impl", CfgValue.vstr "tensorflow"),
        ("head", CfgValue.vnone)] "shuffle_models" = some (cfgDefault "shuffle_models") ∧
    lookupKV [("command", CfgValue.vstr "mylmp"), ("teacher_model_path", CfgValue.vnone),
        ("shuffle_models", CfgValue.vbool false), ("impl", CfgValue.vstr "tensorflow"),
        ("head", CfgValue.vnone)] "_private" = none := by
  refine ⟨(claim_c5 [("bogus", CfgValue.vstr "x")]).1 "bogus" (CfgValue.vstr "x")
    (by decide) (by decide) (by decide), rfl, ?_, ?_⟩
  · exact ((claim_c5 [("_private", CfgValue.vstr "x"),
      ("command", CfgValue.vstr "mylmp")]).2 _ rfl).1 "shuffle_models" (by decide) (by decide)
  · exact ((claim_c5 [("_private", CfgValue.vstr "x"),
      ("command", CfgValue.vstr "mylmp")]).2 _ rfl).2.2 "_private" (by decide)

end RunLmpVerify
